import Mathlib

/-!
Verification development for the Excel-Interview backend.

The Python modules under server/ are shallowly embedded below:

* server/graders/rule_based.py   → namespace `RuleBased`
* server/graders/llm_based.py    → structure `LLMGradingResult` (the external
  model call is modelled as an oracle value supplied by the caller)
* server/graders/hybrid.py       → namespace `Hybrid`
* server/llm/provider_abstraction.py → namespace `Provider`
* server/agents/interviewer.py   → namespace `Interviewer`

Conventions of the embedding:

* Python floats are modelled as exact rationals (ℚ).
* Python dictionaries used as coverage vectors (lookups always go through
  dict.get(skill, 0)) are modelled as total functions String → Nat.
* Calls to the external LLM are modelled as oracle parameters: a value of
  the structured result type when the called component never raises, and an
  Except value when the call can raise.
* random.choice on a non-empty list is modelled by an oracle index
  (the caller supplies a Nat; the element at index mod length is chosen).
* re.search / re.findall are executed by a small backtracking matcher
  (namespace Re) with Python semantics: leftmost starting position,
  greedy quantifiers with backtracking, ordered alternation, and the dot
  not matching a newline.
-/

namespace Re

/-- Python regex class \s, i.e. the characters space, tab, newline,
carriage return, vertical tab and form feed. -/
def isWS (c : Char) : Bool :=
  c == ' ' || c == '\t' || c == '\n' || c == '\r' || c == '\x0b' || c == '\x0c'

/-- Abstract syntax of the (tiny) regex fragment used by rule_based.py :
literals, character classes (as predicates), concatenation, ordered
alternation, greedy star and greedy option. -/
inductive RExp where
  | eps : RExp
  | ch : (Char → Bool) → RExp
  | seq : RExp → RExp → RExp
  | alt : RExp → RExp → RExp
  | star : RExp → RExp
  | opt : RExp → RExp

/-- Backtracking matcher in continuation-passing style, Python semantics:
star and opt are greedy and backtrack into the continuation, alt prefers
its left branch.  The Nat is fuel; it only bounds the recursion depth and
is chosen large enough (see reFuel) never to run out on the patterns of
rule_based.py, whose starred subexpressions all consume at least one
character per iteration. -/
def reMatch : Nat → RExp → List Char → (List Char → Option (List Char)) →
    Option (List Char)
  | 0, _, _, _ => none
  | _ + 1, .eps, s, k => k s
  | _ + 1, .ch _, [], _ => none
  | _ + 1, .ch p, c :: s, k => if p c then k s else none
  | fuel + 1, .seq a b, s, k => reMatch fuel a s (fun s1 => reMatch fuel b s1 k)
  | fuel + 1, .alt a b, s, k => (reMatch fuel a s k) <|> (reMatch fuel b s k)
  | fuel + 1, .star a, s, k =>
      (reMatch fuel a s (fun s1 => reMatch fuel (.star a) s1 k)) <|> k s
  | fuel + 1, .opt a, s, k => (reMatch fuel a s k) <|> k s

def reFuel (s : List Char) : Nat := 100 * (s.length + 2)

/-- Try to match r at the start of s; on success return the suffix left
after the (greedy, backtracking) match. -/
def reMatchEnd (r : RExp) (s : List Char) : Option (List Char) :=
  reMatch (reFuel s) r s some

/-- re.search: try each starting position from the left; on the first
success return (matched characters, remaining suffix).  The matched
characters are group(0) of the Python match object. -/
def reSearch (r : RExp) : List Char → Option (List Char × List Char)
  | [] =>
      match reMatchEnd r [] with
      | some rest => some ([], rest)
      | none => none
  | c :: t =>
      match reMatchEnd r (c :: t) with
      | some rest => some ((c :: t).take ((c :: t).length - rest.length), rest)
      | none => reSearch r t

/-- Boolean form of re.search on a String. -/
def reTest (r : RExp) (s : String) : Bool := (reSearch r s.toList).isSome

/-- len(re.findall(r, s)) for patterns that never match the empty string:
count successive non-overlapping matches, resuming after each match. -/
def reCountAux : Nat → RExp → List Char → Nat
  | 0, _, _ => 0
  | fuel + 1, r, s =>
      match reSearch r s with
      | none => 0
      | some (m, rest) => 1 + reCountAux fuel r (if m.isEmpty then rest.drop 1 else rest)

def reCount (r : RExp) (s : String) : Nat := reCountAux (s.length + 1) r s.toList

/-- Literal string (case-sensitive). -/
def rstr (s : String) : RExp :=
  s.toList.foldr (fun c acc => RExp.seq (RExp.ch (fun d => d == c)) acc) RExp.eps

/-- Literal string under re.IGNORECASE (ASCII case folding). -/
def rstrCI (s : String) : RExp :=
  s.toList.foldr (fun c acc => RExp.seq (RExp.ch (fun d => d.toLower == c.toLower)) acc)
    RExp.eps

/-- Greedy plus, r+ = r r*. -/
def rplus (r : RExp) : RExp := .seq r (.star r)

def pNonComma (c : Char) : Bool := c != ','
def pNonRParen (c : Char) : Bool := c != ')'
/-- The regex dot: any character except a newline (DOTALL is never set). -/
def pDot (c : Char) : Bool := c != '\n'
def pUpper (c : Char) : Bool := 'A' ≤ c && c ≤ 'Z'
def pDigit (c : Char) : Bool := c.isDigit

end Re

namespace StrOps

/-- Python str.lower for the ASCII answers and questions handled here. -/
def lowerStr (s : String) : String := String.mk (s.toList.map Char.toLower)

/-- Python str.upper for the ASCII answers and questions handled here. -/
def upperStr (s : String) : String := String.mk (s.toList.map Char.toUpper)

/-- needle occurs as a contiguous substring of hay (Python in-operator on str). -/
def startsWithL (nd hay : List Char) : Bool :=
  match nd, hay with
  | [], _ => true
  | _ :: _, [] => false
  | a :: ns, b :: hs => a == b && startsWithL ns hs

def containsL (hay nd : List Char) : Bool :=
  match hay with
  | [] => nd.isEmpty
  | _ :: t => startsWithL nd hay || containsL t nd

def strContains (hay nd : String) : Bool := containsL hay.toList nd.toList

/-- len(s.split()) in Python: number of maximal whitespace-free runs. -/
def wordsAux : List Char → Bool → Nat
  | [], _ => 0
  | c :: t, inWord =>
      if Re.isWS c then wordsAux t false
      else (if inWord then 0 else 1) + wordsAux t true

def wordsCount (s : String) : Nat := wordsAux s.toList false

/-- Python str.strip(): remove leading and trailing whitespace. -/
def stripL (l : List Char) : List Char :=
  ((l.dropWhile Re.isWS).reverse.dropWhile Re.isWS).reverse

def stripStr (s : String) : String := String.mk (stripL s.toList)

/-- Python str.isdigit for ASCII content: non-empty and all digits. -/
def isDigitStr (s : String) : Bool :=
  !s.toList.isEmpty && s.toList.all Char.isDigit

/-- Python s.replace(a, b) where a and b are single characters. -/
def replaceChar (s : String) (a b : Char) : String :=
  String.mk (s.toList.map (fun c => if c = a then b else c))

end StrOps

namespace RuleBased

open Re StrOps

/-! formula_patterns from RuleBasedGrader.__init__, hand-compiled to RExp.
Each definition notes the original pattern; the ci flag selects the
re.IGNORECASE variant used at the call sites of _grade_vlookup,
_grade_if_functions and _grade_basic_formulas.  The common_errors table of
__init__ is never consulted by any grading method and is not modelled. -/

def lit (ci : Bool) (s : String) : RExp := if ci then rstrCI s else rstr s

/-- sum: =?\s*SUM\s*\([^)]+\) -/
def reSum (ci : Bool) : RExp :=
  .seq (.opt (rstr "=")) <| .seq (.star (.ch isWS)) <| .seq (lit ci "SUM") <|
  .seq (.star (.ch isWS)) <| .seq (rstr "(") <| .seq (rplus (.ch pNonRParen)) (rstr ")")

/-- vlookup: =?\s*VLOOKUP\s*\([^,]+,[^,]+,[^,]+,.*\) -/
def reVlookup (ci : Bool) : RExp :=
  .seq (.opt (rstr "=")) <| .seq (.star (.ch isWS)) <| .seq (lit ci "VLOOKUP") <|
  .seq (.star (.ch isWS)) <| .seq (rstr "(") <| .seq (rplus (.ch pNonComma)) <|
  .seq (rstr ",") <| .seq (rplus (.ch pNonComma)) <| .seq (rstr ",") <|
  .seq (rplus (.ch pNonComma)) <| .seq (rstr ",") <| .seq (.star (.ch pDot)) (rstr ")")

/-- if: =?\s*IF\s*\([^,]+,[^,]+.*\) -/
def reIf (ci : Bool) : RExp :=
  .seq (.opt (rstr "=")) <| .seq (.star (.ch isWS)) <| .seq (lit ci "IF") <|
  .seq (.star (.ch isWS)) <| .seq (rstr "(") <| .seq (rplus (.ch pNonComma)) <|
  .seq (rstr ",") <| .seq (rplus (.ch pNonComma)) <| .seq (.star (.ch pDot)) (rstr ")")

/-- countif: =?\s*COUNTIF\s*\([^,]+,[^)]+\) -/
def reCountif (ci : Bool) : RExp :=
  .seq (.opt (rstr "=")) <| .seq (.star (.ch isWS)) <| .seq (lit ci "COUNTIF") <|
  .seq (.star (.ch isWS)) <| .seq (rstr "(") <| .seq (rplus (.ch pNonComma)) <|
  .seq (rstr ",") <| .seq (rplus (.ch pNonRParen)) (rstr ")")

/-- index_match: =?\s*INDEX\s*\([^,]+,\s*MATCH\s*\([^)]+\)\s*\) -/
def reIndexMatch (ci : Bool) : RExp :=
  .seq (.opt (rstr "=")) <| .seq (.star (.ch isWS)) <| .seq (lit ci "INDEX") <|
  .seq (.star (.ch isWS)) <| .seq (rstr "(") <| .seq (rplus (.ch pNonComma)) <|
  .seq (rstr ",") <| .seq (.star (.ch isWS)) <| .seq (lit ci "MATCH") <|
  .seq (.star (.ch isWS)) <| .seq (rstr "(") <| .seq (rplus (.ch pNonRParen)) <|
  .seq (rstr ")") <| .seq (.star (.ch isWS)) (rstr ")")

/-- absolute_ref: \$[A-Z]+\$[0-9]+ -/
def reAbsRef : RExp :=
  .seq (rstr "$") <| .seq (rplus (.ch pUpper)) <| .seq (rstr "$") (rplus (.ch pDigit))

/-- relative_ref: [A-Z]+[0-9]+ -/
def reRelRef : RExp := .seq (rplus (.ch pUpper)) (rplus (.ch pDigit))

/-- range: [A-Z]+[0-9]+:[A-Z]+[0-9]+ -/
def reRange : RExp :=
  .seq (rplus (.ch pUpper)) <| .seq (rplus (.ch pDigit)) <| .seq (rstr ":") <|
  .seq (rplus (.ch pUpper)) (rplus (.ch pDigit))

/-- The findall pattern IF\s*\( of _grade_if_functions. -/
def reIfCall (ci : Bool) : RExp :=
  .seq (lit ci "IF") <| .seq (.star (.ch isWS)) (rstr "(")

/-- The pattern \d+\. of _grade_case_analysis. -/
def reNumberedItem : RExp := .seq (rplus (.ch pDigit)) (rstr ".")

/-- The pattern reference.*change|move of _grade_references (alternation
binds loosest: (reference.*change)|(move)). -/
def reRefChange : RExp :=
  .alt (.seq (rstr "reference") (.seq (.star (.ch pDot)) (rstr "change"))) (rstr "move")

/-- re.search("\(([^)]+)\)", s) and group(1): at the leftmost position where
an opening parenthesis is followed by at least one character other than a
closing parenthesis and then a closing parenthesis, the inner characters. -/
def extractParenGroup : List Char → Option (List Char)
  | [] => none
  | '(' :: t =>
      let run := t.takeWhile Re.pNonRParen
      if run.isEmpty then extractParenGroup t
      else
        match t.drop run.length with
        | ')' :: _ => some run
        | _ => extractParenGroup t
  | _ :: t => extractParenGroup t

/-- The comma-splitting loop of _extract_function_params: split on commas at
parenthesis depth 0, stripping each piece; a piece ending at a comma is
appended unconditionally, the final piece only if non-empty after strip. -/
def splitParams : List Char → Int → List Char → List String → List String
  | [], _, cur, acc =>
      if (stripL cur).isEmpty then acc else acc ++ [String.mk (stripL cur)]
  | c :: t, depth, cur, acc =>
      if c = '(' then splitParams t (depth + 1) (cur ++ [c]) acc
      else if c = ')' then splitParams t (depth - 1) (cur ++ [c]) acc
      else if c = ',' ∧ depth = 0 then
        splitParams t depth [] (acc ++ [String.mk (stripL cur)])
      else splitParams t depth (cur ++ [c]) acc

/-- RuleBasedGrader._extract_function_params -/
def extractFunctionParams (s : String) : List String :=
  match extractParenGroup s.toList with
  | some g => splitParams g 0 [] []
  | none => []

/-- GradingResult of the rule grader (dataclass RuleResult). -/
structure RuleResult where
  passed : Bool
  score : ℚ
  error_tags : List String
  feedback : String
deriving Repr, DecidableEq

/-- RuleBasedGrader._grade_references -/
def gradeReferences (question answer : String) (difficulty : Nat) : RuleResult :=
  let answer_lower := lowerStr answer
  let absoluteAsked :=
    strContains (lowerStr question) "absolute" || strContains question "$"
  let absFound := reTest reAbsRef answer
  let relativeAsked :=
    strContains (lowerStr question) "relative" || reTest reRefChange (lowerStr question)
  let relFound := reTest reRelRef answer
  let rangeFound := reTest reRange answer
  let bonus := decide (10 < wordsCount answer) &&
    (["because", "when", "will", "changes"].any (fun w => strContains answer_lower w))
  let score : ℚ :=
    (if absoluteAsked && absFound then 0.5 else 0) +
    (if relativeAsked && relFound then 0.3 else 0) +
    (if rangeFound then 0.2 else 0) + (if bonus then 0.2 else 0)
  let error_tags :=
    (if absoluteAsked && !absFound then ["missing_absolute_reference"] else []) ++
    (if relativeAsked && !relFound then ["missing_relative_concept"] else [])
  let feedback_parts :=
    (if absoluteAsked && absFound then ["Correctly identified absolute reference syntax"]
     else []) ++
    (if absoluteAsked && !absFound then ["Missing absolute reference syntax ($A$1)"]
     else []) ++
    (if relativeAsked && relFound then ["Showed understanding of relative references"]
     else []) ++
    (if rangeFound then ["Used proper range syntax"] else []) ++
    (if bonus then ["Provided good explanation of concepts"] else [])
  { passed := decide ((0.6 : ℚ) ≤ score), score := min score 1, error_tags := error_tags,
    feedback := String.intercalate "; " feedback_parts }

/-- RuleBasedGrader._grade_vlookup, first phase: the VLOOKUP-pattern branch,
returning (score so far, error tags so far, feedback parts so far). -/
def gradeVlookupMain (answer : String) : ℚ × List String × List String :=
  match reSearch (reVlookup true) answer.toList with
  | some (mc, _) =>
      let params := extractFunctionParams (String.mk mc)
      if 3 ≤ params.length then
        let arrOk := reTest reRange (params.getD 1 "") || strContains (params.getD 1 "") ":"
        let colOk := isDigitStr (stripStr (params.getD 2 ""))
        let matchOk := decide (4 ≤ params.length) &&
          (["false", "0", "true", "1"].contains (stripStr (lowerStr (params.getD 3 ""))))
        (0.4 + 0.2 + (if arrOk then 0.1 else 0) + (if colOk then 0.1 else 0) +
           (if matchOk then 0.1 else 0),
         (if arrOk then [] else ["invalid_table_array"]) ++
           (if colOk then [] else ["invalid_column_index"]),
         ["Used VLOOKUP function", "Included required parameters"] ++
           (if matchOk then ["Specified lookup match type"] else []))
      else
        (0.4, ["incomplete_vlookup_params"], ["Used VLOOKUP function"])
  | none =>
      if ["index", "match", "xlookup", "filter"].any
          (fun alt => strContains (lowerStr answer) alt) then
        (0.3, [], ["Mentioned alternative lookup methods"])
      else (0, ["no_lookup_function"], [])

/-- RuleBasedGrader._grade_vlookup -/
def gradeVlookup (question answer : String) (difficulty : Nat) : RuleResult :=
  let main := gradeVlookupMain answer
  let approxAsked := strContains (lowerStr question) "approximate" && decide (3 ≤ difficulty)
  let approxGiven := strContains (lowerStr answer) "approximate" ||
    strContains (lowerStr answer) "true" || strContains answer "1"
  let score := main.1 + (if approxAsked && approxGiven then 0.1 else 0)
  let error_tags := main.2.1 ++
    (if approxAsked && !approxGiven then ["missing_approximate_match_discussion"] else [])
  { passed := decide ((0.6 : ℚ) ≤ score), score := min score 1, error_tags := error_tags,
    feedback := String.intercalate "; " main.2.2 }

/-- RuleBasedGrader._grade_if_functions, IF-pattern branch:
(score so far, error tags so far, feedback parts so far). -/
def gradeIfMain (question answer : String) (difficulty : Nat) : ℚ × List String × List String :=
  match reSearch (reIf true) answer.toList with
  | some (mc, _) =>
      let params := extractFunctionParams (String.mk mc)
      if 2 ≤ params.length then
        let opOk := [">=", "<=", ">", "<", "=", "<>"].any
          (fun op => strContains (params.getD 0 "") op)
        let nested := reCount (reIfCall true) answer
        let nestedBonus := decide (3 ≤ difficulty) && decide (1 < nested)
        let nestedMissing := decide (3 ≤ difficulty) && !(decide (1 < nested)) &&
          strContains (lowerStr question) "nested"
        (0.3 + 0.2 + (if opOk then 0.1 else 0) + (if nestedBonus then 0.2 else 0),
         (if nestedMissing then ["missing_nested_if"] else []),
         ["Used IF function", "Included condition and result"] ++
           (if opOk then ["Used comparison operator"] else []) ++
           (if nestedBonus then ["Used nested IF functions"] else []))
      else (0.3, [], ["Used IF function"])
  | none => (0, ["no_if_function"], [])

/-- RuleBasedGrader._grade_if_functions -/
def gradeIfFunctions (question answer : String) (difficulty : Nat) : RuleResult :=
  let main := gradeIfMain question answer difficulty
  let logicalOps := decide (3 ≤ difficulty) &&
    (["AND", "OR"].any (fun op => strContains (upperStr answer) op))
  let score := main.1 + (if logicalOps then 0.1 else 0)
  { passed := decide ((0.6 : ℚ) ≤ score), score := min score 1, error_tags := main.2.1,
    feedback := String.intercalate "; "
      (main.2.2 ++ (if logicalOps then ["Used logical operators"] else [])) }

/-- Python s.startswith(pre). -/
def strStartsWith (s pre : String) : Bool := startsWithL pre.toList s.toList

/-- RuleBasedGrader._grade_basic_formulas -/
def gradeBasicFormulas (question answer : String) (difficulty : Nat) : RuleResult :=
  let formulaSyntax := strStartsWith (stripStr answer) "=" || strContains answer "="
  let sumAsked := strContains (lowerStr question) "sum"
  let sumOk := reTest (reSum true) answer
  let rangeFound := reTest reRange answer
  let conceptCount := (["formula", "function", "cell", "range", "reference"].filter
    (fun w => strContains (lowerStr answer) w)).length
  let score : ℚ :=
    (if formulaSyntax then 0.2 else 0) + (if sumAsked && sumOk then 0.4 else 0) +
    (if rangeFound then 0.2 else 0) + (if 2 ≤ conceptCount then 0.2 else 0)
  let error_tags := if sumAsked && !sumOk then ["missing_sum_function"] else []
  let feedback_parts :=
    (if formulaSyntax then ["Used formula syntax"] else []) ++
    (if sumAsked && sumOk then ["Used SUM function correctly"] else []) ++
    (if rangeFound then ["Used proper range notation"] else []) ++
    (if 2 ≤ conceptCount then ["Demonstrated understanding of Excel concepts"] else [])
  { passed := decide ((0.6 : ℚ) ≤ score), score := min score 1, error_tags := error_tags,
    feedback := String.intercalate "; " feedback_parts }

/-- RuleBasedGrader._grade_pivot_tables -/
def gradePivotTables (question answer : String) (difficulty : Nat) : RuleResult :=
  let kw := ["pivot", "pivot table", "summarize", "group", "aggregate"].any
    (fun k => strContains (lowerStr answer) k)
  let componentCount := (["rows", "columns", "values", "filters", "fields"].filter
    (fun comp => strContains (lowerStr answer) comp)).length
  let steps := ["first", "then", "next", "step", "insert", "create", "drag", "drop"].any
    (fun ind => strContains (lowerStr answer) ind)
  let score : ℚ := (if kw then 0.3 else 0) + min 0.3 ((componentCount : ℚ) * 0.1) +
    (if steps then 0.2 else 0)
  let feedback_parts :=
    (if kw then ["Mentioned pivot tables"] else []) ++
    (if 2 ≤ componentCount then ["Understood pivot table structure"] else []) ++
    (if steps then ["Provided step-by-step approach"] else [])
  { passed := decide ((0.6 : ℚ) ≤ score), score := min score 1, error_tags := [],
    feedback := String.intercalate "; " feedback_parts }

/-- RuleBasedGrader._grade_case_analysis -/
def gradeCaseAnalysis (question answer : String) (difficulty : Nat) : RuleResult :=
  let formulaCount := (["AVERAGEIF", "COUNTIF", "INDEX", "MATCH", "VLOOKUP", "DATEDIF",
    "TODAY"].filter (fun func => strContains (upperStr answer) func)).length
  let rangeCount := reCount reRange answer
  let numbered := reTest reNumberedItem answer
  let explains := ["because", "since", "this will", "to calculate", "in order to"].any
    (fun w => strContains (lowerStr answer) w)
  let score : ℚ := min 0.4 ((formulaCount : ℚ) * 0.1) +
    (if 2 ≤ rangeCount then 0.2 else 0) + (if numbered then 0.2 else 0) +
    (if explains then 0.2 else 0)
  let feedback_parts :=
    (if 2 ≤ formulaCount then ["Used " ++ toString formulaCount ++ " relevant functions"]
     else []) ++
    (if 2 ≤ rangeCount then ["Used appropriate data ranges"] else []) ++
    (if numbered then ["Provided structured responses"] else []) ++
    (if explains then ["Provided reasoning for approach"] else [])
  { passed := decide ((0.6 : ℚ) ≤ score), score := min score 1, error_tags := [],
    feedback := String.intercalate "; " feedback_parts }

/-- RuleBasedGrader._grade_generic -/
def gradeGeneric (question answer target_skill : String) (difficulty : Nat) : RuleResult :=
  let short := decide ((stripStr answer).length < 10)
  let detailed := decide (20 < wordsCount answer)
  let score : ℚ := 0.5 - (if short then 0.2 else 0) + (if detailed then 0.1 else 0)
  { passed := decide ((0.6 : ℚ) ≤ score), score := min (max score 0) 1,
    error_tags := if short then ["answer_too_short"] else [],
    feedback := String.intercalate "; "
      (["Used generic rule-based evaluation"] ++
        (if detailed then ["Provided detailed response"] else [])) }

/-- RuleBasedGrader.grade_answer (the per-skill dispatch). -/
def grade_answer (question answer target_skill : String) (difficulty : Nat)
    (expected_answer : Option String) : RuleResult :=
  if target_skill = "references" then gradeReferences question answer difficulty
  else if target_skill = "vlookup" then gradeVlookup question answer difficulty
  else if target_skill = "if_functions" then gradeIfFunctions question answer difficulty
  else if target_skill = "basic_formulas" then gradeBasicFormulas question answer difficulty
  else if target_skill = "pivot_tables" then gradePivotTables question answer difficulty
  else if target_skill = "case_analysis" then gradeCaseAnalysis question answer difficulty
  else gradeGeneric question answer target_skill difficulty

end RuleBased

/-- GradingResult of the LLM grader (dataclass LLMGradingResult in
llm_based.py).  The grader itself wraps an external model call and, per its
own contract, never raises: every call path returns a value of this type
(parse success or the deterministic fallback).  It is therefore modelled at
grade-time as an oracle value of this type supplied by the caller. -/
structure LLMGradingResult where
  scores_by_dimension : List (String × ℚ)
  total_score : ℚ
  error_tags : List String
  confidence : ℚ
  feedback_short : String
deriving Repr

namespace Provider

/-- The mutable provider/model selection of LLMProviderManager.  The lazily
initialised client object is not modelled: none of the mutations below
consult it, and get_provider_info reports provider and model_name. -/
structure ProviderState where
  provider : String
  model_name : String
deriving Repr, DecidableEq

/-- LLMProviderManager._get_default_model -/
def get_default_model (provider : String) : String :=
  if provider = "gemini" then "gemini-2.0-flash-exp"
  else if provider = "groq" then "llama-3.1-70b-versatile"
  else if provider = "claude" then "claude-3-5-sonnet-20241022"
  else "gemini-2.0-flash-exp"

/-- LLMProviderManager.switch_provider: provider is lowered, and the model
name falls back to the default of the new provider when absent or falsy.
The body cannot raise, so the rollback branch of the Python try/except is
dead and the function is total. -/
def switch_provider (ps : ProviderState) (provider : String) (model_name : Option String) :
    ProviderState :=
  let p := StrOps.lowerStr provider
  { provider := p,
    model_name :=
      match model_name with
      | some m => if m = "" then get_default_model p else m
      | none => get_default_model p }

/-- The provider and model fields of LLMProviderManager.get_provider_info. -/
def get_provider_info (ps : ProviderState) : String × String := (ps.provider, ps.model_name)

end Provider

namespace Hybrid

open RuleBased (RuleResult)

/-- Result record built by HybridGrader._combine_results
(dataclass HybridGradingResult). -/
structure HybridGradingResult where
  rule_score : Option ℚ
  llm_score : Option ℚ
  hybrid_score : ℚ
  confidence : ℚ
  error_tags : List String
  feedback : String
  grading_method : String
deriving Repr

/-- The plain dict returned by HybridGrader.grade_answer and
HybridGrader._escalate_grading. -/
structure GradeOutput where
  rule_score : Option ℚ
  llm_score : Option ℚ
  hybrid_score : ℚ
  confidence : ℚ
  error_tags : List String
  feedback : String
  grading_method : String
deriving Repr

def high_confidence_threshold : ℚ := 0.8
def escalation_threshold : ℚ := 0.5
def disagreement_threshold : ℚ := 20

def rule_heavy_skills : List String :=
  ["references", "basic_formulas", "vlookup", "if_functions"]

def llm_heavy_skills : List String :=
  ["pivot_tables", "case_analysis", "charts", "best_practices"]

/-- HybridGrader._contains_formulas -/
def contains_formulas (answer : String) : Bool :=
  ["=", "SUM(", "VLOOKUP(", "IF(", "COUNTIF(", "INDEX(", "MATCH("].any
    (fun indicator => StrOps.strContains (StrOps.upperStr answer) indicator)

/-- HybridGrader._needs_llm_grading -/
def needs_llm_grading (rule_result : Option RuleResult) (target_skill : String)
    (difficulty : Nat) (answer : String) : Bool :=
  if target_skill ∈ llm_heavy_skills then true
  else if 3 ≤ difficulty then true
  else if (match rule_result with
           | some r => decide (r.score < 0.3)
           | none => false) then true
  else if 50 < StrOps.wordsCount answer then true
  else if (match rule_result with
           | some r => !r.error_tags.isEmpty && decide (100 < answer.length)
           | none => false) then true
  else false

/-- HybridGrader._combine_results -/
def combine_results (rule_result : Option RuleResult) (llm_result : Option LLMGradingResult)
    (target_skill : String) (difficulty : Nat) : HybridGradingResult :=
  match rule_result, llm_result with
  | some r, none =>
      { rule_score := some (r.score * 100), llm_score := none,
        hybrid_score := r.score * 100,
        confidence := if r.passed then 0.8 else 0.6,
        error_tags := r.error_tags, feedback := r.feedback,
        grading_method := "rule_only" }
  | none, some l =>
      { rule_score := none, llm_score := some l.total_score,
        hybrid_score := l.total_score, confidence := l.confidence,
        error_tags := l.error_tags, feedback := l.feedback_short,
        grading_method := "llm_only" }
  | some r, some l =>
      let rule_score := r.score * 100
      let llm_score := l.total_score
      let score_diff := |rule_score - llm_score|
      if score_diff ≤ disagreement_threshold then
        let weight_rule : ℚ := if target_skill ∈ rule_heavy_skills then 0.7 else 0.3
        let weight_llm := 1 - weight_rule
        -- Line 151 of hybrid.py reads min(0.9, 0.8 + llm_result.confidence) / 2 :
        -- the division by 2 applies to the capped sum.  RuleResult carries no
        -- attribute named confidence, so the hasattr default 0.8 is always taken.
        { rule_score := some rule_score, llm_score := some llm_score,
          hybrid_score := rule_score * weight_rule + llm_score * weight_llm,
          confidence := min 0.9 (0.8 + l.confidence) / 2,
          -- list(set(a + b)): union without duplicates; the iteration order of a
          -- Python set is unspecified and is fixed here as first occurrences.
          error_tags := (r.error_tags ++ l.error_tags).dedup,
          feedback := "Rule-based: " ++ r.feedback ++ ". LLM analysis: " ++ l.feedback_short,
          grading_method := "hybrid" }
      else
        let primary_score :=
          if target_skill ∈ rule_heavy_skills ∧ r.passed = true then rule_score else llm_score
        let primary_method :=
          if target_skill ∈ rule_heavy_skills ∧ r.passed = true then "rule_primary"
          else "llm_primary"
        -- The f-string rounds score_diff to one decimal; rendered with toString
        -- here.  No claim depends on the feedback text.
        { rule_score := some rule_score, llm_score := some llm_score,
          hybrid_score := primary_score, confidence := 0.6,
          error_tags := r.error_tags ++ l.error_tags ++ ["scoring_disagreement"],
          feedback := "Rule vs LLM disagreement (" ++ toString score_diff ++
            " points). Primary: " ++ primary_method,
          grading_method := "disagreement" }
  | none, none =>
      { rule_score := none, llm_score := none, hybrid_score := 50, confidence := 0.3,
        error_tags := ["grading_error"], feedback := "Unable to grade properly",
        grading_method := "fallback" }

/-- HybridGrader._needs_escalation -/
def needs_escalation (hybrid_result : HybridGradingResult) (rule_result : Option RuleResult)
    (llm_result : Option LLMGradingResult) : Bool :=
  if hybrid_result.confidence < escalation_threshold then true
  else if "scoring_disagreement" ∈ hybrid_result.error_tags then true
  else if hybrid_result.grading_method = "fallback" then true
  else false

/-- The fallback tail of HybridGrader._escalate_grading (reached when the
provider is already claude, or the switched call raised and the exception
was swallowed by the outer except): return the best available result with
an escalation_failed tag. -/
def escalationFallback (rule_result : Option RuleResult)
    (llm_result : Option LLMGradingResult) : GradeOutput :=
  match llm_result with
  | some l =>
      { rule_score := rule_result.map (fun r => r.score * 100),
        llm_score := some l.total_score, hybrid_score := l.total_score,
        confidence := l.confidence,
        error_tags := l.error_tags ++ ["escalation_failed"],
        feedback := "Escalation failed. " ++ l.feedback_short,
        grading_method := "escalation_failed" }
  | none =>
      { rule_score := rule_result.map (fun r => r.score * 100), llm_score := none,
        hybrid_score := match rule_result with
          | some r => r.score * 100
          | none => 50,
        confidence := 0.4,
        error_tags := ["escalation_failed", "grading_incomplete"],
        feedback := "Unable to complete escalated grading",
        grading_method := "escalation_failed" }

/-- HybridGrader._escalate_grading.  The call to the stronger model is the
oracle claudeCall; .error models the call raising.  The provider state is
threaded explicitly: the source switches to claude, performs the call and
restores the original provider in a finally block, so the restore happens
on both the return path and the raising path; a raising path then falls
into the shared fallback tail via the outer except. -/
def escalate_grading (question answer target_skill : String) (difficulty : Nat)
    (rule_result : Option RuleResult) (llm_result : Option LLMGradingResult)
    (ps : Provider.ProviderState) (claudeCall : Except Unit LLMGradingResult) :
    GradeOutput × Provider.ProviderState :=
  let original_provider := ps.provider
  if original_provider ≠ "claude" then
    let ps1 := Provider.switch_provider ps "claude" (some "claude-3-5-sonnet-20241022")
    match claudeCall with
    | .ok claude_result =>
        let ps2 := Provider.switch_provider ps1 original_provider none
        ({ rule_score := rule_result.map (fun r => r.score * 100),
           llm_score := some claude_result.total_score,
           hybrid_score := claude_result.total_score,
           confidence := min 0.9 (claude_result.confidence + 0.1),
           error_tags := claude_result.error_tags,
           feedback := "Escalated to premium model. " ++ claude_result.feedback_short,
           grading_method := "escalated_claude" }, ps2)
    | .error _ =>
        let ps2 := Provider.switch_provider ps1 original_provider none
        (escalationFallback rule_result llm_result, ps2)
  else (escalationFallback rule_result llm_result, ps)

/-- HybridGrader.grade_answer.  llmOutcome is the oracle outcome of the
LLM grader (which never raises), consumed only when _needs_llm_grading
says so; claudeCall is the oracle for the escalated call. -/
def grade_answer (question answer target_skill : String) (difficulty : Nat)
    (expected_answer : Option String) (llmOutcome : LLMGradingResult)
    (ps : Provider.ProviderState) (claudeCall : Except Unit LLMGradingResult) :
    GradeOutput × Provider.ProviderState :=
  let rule_result :=
    if target_skill ∈ rule_heavy_skills ∨ contains_formulas answer = true then
      some (RuleBased.grade_answer question answer target_skill difficulty expected_answer)
    else none
  let needs_llm := needs_llm_grading rule_result target_skill difficulty answer
  let llm_result := if needs_llm then some llmOutcome else none
  let hybrid_result := combine_results rule_result llm_result target_skill difficulty
  if needs_escalation hybrid_result rule_result llm_result then
    escalate_grading question answer target_skill difficulty rule_result llm_result ps
      claudeCall
  else
    ({ rule_score := rule_result.map (fun r => r.score * 100),
       llm_score := llm_result.map (fun l => l.total_score),
       hybrid_score := hybrid_result.hybrid_score,
       confidence := hybrid_result.confidence,
       error_tags := hybrid_result.error_tags,
       feedback := hybrid_result.feedback,
       grading_method := hybrid_result.grading_method }, ps)

end Hybrid

namespace Interviewer

/-- class InterviewState(Enum) of interviewer.py. -/
inductive InterviewState where
  | INTRO | CALIBRATE | CORE_Q | DEEP_DIVE | CASE | REVIEW | SUMMARY
deriving Repr, DecidableEq

/-- The Enum value-lookup InterviewState(s): the member whose string value is
s, or ValueError (none) otherwise. -/
def InterviewState.ofString : String → Option InterviewState
  | "INTRO" => some .INTRO
  | "CALIBRATE" => some .CALIBRATE
  | "CORE_Q" => some .CORE_Q
  | "DEEP_DIVE" => some .DEEP_DIVE
  | "CASE" => some .CASE
  | "REVIEW" => some .REVIEW
  | "SUMMARY" => some .SUMMARY
  | _ => none

/-- The .value string of an InterviewState member. -/
def InterviewState.val : InterviewState → String
  | .INTRO => "INTRO"
  | .CALIBRATE => "CALIBRATE"
  | .CORE_Q => "CORE_Q"
  | .DEEP_DIVE => "DEEP_DIVE"
  | .CASE => "CASE"
  | .REVIEW => "REVIEW"
  | .SUMMARY => "SUMMARY"

/-- A Python value as it occurs in the membership test of process_turn:
either a str or an InterviewState enum member. -/
inductive PyVal where
  | pstr : String → PyVal
  | penum : InterviewState → PyVal

/-- Python == on such values: a str equals only an equal str; an Enum member
only the same member (InterviewState does not mix in str, and Enum keeps the
default identity-based equality across types). -/
def pyEq : PyVal → PyVal → Bool
  | .pstr a, .pstr b => a == b
  | .penum a, .penum b => decide (a = b)
  | _, _ => false

/-- Python x in l, which tests x == y for the members y of l. -/
def pyMem (x : PyVal) (l : List PyVal) : Bool := l.any (pyEq x)

/-- self.coverage_skills -/
def coverage_skills : List String :=
  ["references", "ranges", "formatting", "if_functions", "vlookup",
   "index_match", "countif", "sumif", "text_functions", "date_functions",
   "sorting", "filtering", "pivot_tables", "validation", "conditional_formatting",
   "whatif_analysis", "goal_seek", "statistics", "error_tracing", "charts"]

/-- skill_categories["foundations"] -/
def foundations : List String := ["references", "ranges", "formatting"]

/-- skill_categories["functions"] -/
def functions : List String :=
  ["if_functions", "vlookup", "index_match", "countif", "sumif",
   "text_functions", "date_functions"]

/-- skill_categories["data_ops"] -/
def data_ops : List String :=
  ["sorting", "filtering", "pivot_tables", "validation", "conditional_formatting"]

/-- skill_categories["analysis"] -/
def analysis : List String :=
  ["whatif_analysis", "goal_seek", "statistics", "error_tracing"]

def max_turns : Nat := 25

/-- A coverage vector: every read in interviewer.py goes through
coverage_vector.get(skill, 0), so the dict is modelled as the total
function with default 0; the empty dict is the zero function. -/
def Cov : Type := String → Nat

/-- The parsed JSON of the LLM response in _transition_to_calibrate:
parsed["question"] (a KeyError there lands in the except branch, so on this
path the question is present) and parsed.get("target_skill", "references"). -/
structure CalibParsed where
  question : String
  target_skill : Option String

/-- The response dicts built by the transition helpers.  Keys absent from a
particular dict (for example end_reason, or target_skill in _end_interview)
are Option-valued: main.py reads them with response.get. -/
structure TurnResponse where
  state : InterviewState
  question : String
  target_skill : Option String
  difficulty : Option Nat
  next_action : String
  coverage_vector : Cov
  rubric_ref : Option String
  ask_clarification_opt : Option String
  end_reason : Option String

/-- random.choice on a non-empty list, with the random draw supplied as an
oracle index (reduced mod the length).  Every element is chosen for some
index; on the (unreachable) empty list Python would raise. -/
def pickFrom (l : List String) (choice : Nat) : String := l.getD (choice % l.length) ""

/-- Python min(l, key=f): the first element attaining the minimum. -/
def argminFirst (l : List String) (f : String → Nat) : String :=
  match l with
  | [] => ""
  | x :: t => t.foldl (fun best s => if f s < f best then s else best) x

/-- InterviewAgent.start_interview.  The question is the fixed intro text;
the coverage vector maps every skill to 0. -/
def introQuestion : String :=
  "Hello! I'm your Excel interviewer today. I'll be conducting a comprehensive assessment of your Excel skills across various areas including formulas, data analysis, and chart creation.\n\nThe interview will take approximately 30-45 minutes and will progressively increase in difficulty based on your responses. Please answer as thoroughly as possible and feel free to explain your reasoning.\n\nLet's start with a brief introduction: Could you tell me about your experience with Excel and what you consider your strongest Excel skills?"

def start_interview (interview_id : Nat) : TurnResponse :=
  { state := .INTRO, question := introQuestion, target_skill := some "introduction",
    difficulty := some 1, next_action := "AWAIT_ANSWER",
    coverage_vector := fun _ => 0, rubric_ref := none, ask_clarification_opt := none,
    end_reason := none }

/-- InterviewAgent._transition_to_calibrate.  calib models the outcome of
generate_interview_question plus json.loads: some parse on success, none
when the call or the parse raises (the except branch). -/
def transition_to_calibrate (coverage_vector : Cov) (calib : Option CalibParsed) :
    TurnResponse :=
  match calib with
  | some parsed =>
      let skill := parsed.target_skill.getD "references"
      { state := .CALIBRATE, question := parsed.question, target_skill := some skill,
        difficulty := some 1, next_action := "AWAIT_ANSWER",
        coverage_vector := fun s =>
          if s = skill then max (coverage_vector s) 1 else coverage_vector s,
        rubric_ref := some ("calibration_" ++ skill), ask_clarification_opt := none,
        end_reason := none }
  | none =>
      { state := .CALIBRATE,
        question := "How would you create a formula to sum all values in column A from row 1 to row 100?",
        target_skill := some "basic_formulas", difficulty := some 1,
        next_action := "AWAIT_ANSWER", coverage_vector := coverage_vector,
        rubric_ref := some "calibration_basic_formulas", ask_clarification_opt := none,
        end_reason := none }

/-- InterviewAgent._generate_skill_question: the template table for
vlookup / if_functions / pivot_tables at difficulties 2 and 3, otherwise
the generic fallback text. -/
def generate_skill_question (skill : String) (difficulty : Nat) : String :=
  if skill = "vlookup" ∧ difficulty = 2 then
    "You have a table with Product IDs in column A and Product Names in column B. How would you use VLOOKUP to find the product name for a specific ID in another worksheet?"
  else if skill = "vlookup" ∧ difficulty = 3 then
    "Explain how to use VLOOKUP with approximate match and why you might choose this over exact match. Provide an example formula."
  else if skill = "if_functions" ∧ difficulty = 2 then
    "How would you create a formula that displays 'Pass' if a score in cell B2 is 70 or above, and 'Fail' if below 70?"
  else if skill = "if_functions" ∧ difficulty = 3 then
    "Create a nested IF formula that assigns grades: A (90+), B (80-89), C (70-79), D (60-69), F (<60) based on a score in cell B2."
  else if skill = "pivot_tables" ∧ difficulty = 2 then
    "Describe the steps to create a basic pivot table from a dataset with Sales Rep, Region, and Sales Amount columns."
  else if skill = "pivot_tables" ∧ difficulty = 3 then
    "How would you modify a pivot table to show both count and percentage of total sales by region, and add a filter for specific time periods?"
  else
    "Please explain how you would approach " ++ StrOps.replaceChar skill '_' ' ' ++ " in Excel."

/-- InterviewAgent._transition_to_core -/
def transition_to_core (coverage_vector : Cov) (choice : Nat) : TurnResponse :=
  let priority_skills := foundations ++ functions
  let uncovered_skills := priority_skills.filter (fun skill => coverage_vector skill = 0)
  let target_skill :=
    if !uncovered_skills.isEmpty then pickFrom uncovered_skills choice
    else argminFirst priority_skills coverage_vector
  { state := .CORE_Q, question := generate_skill_question target_skill 2,
    target_skill := some target_skill, difficulty := some 2,
    next_action := "AWAIT_ANSWER",
    coverage_vector := fun s =>
      if s = target_skill then max (coverage_vector s) 2 else coverage_vector s,
    rubric_ref := some ("core_" ++ target_skill ++ "_level2"),
    ask_clarification_opt := none, end_reason := none }

/-- InterviewAgent._continue_core_questions -/
def continue_core_questions (coverage_vector : Cov) (choice : Nat) : TurnResponse :=
  let all_skills := foundations ++ functions ++ data_ops
  let uncovered := all_skills.filter (fun skill => coverage_vector skill < 2)
  let target_skill :=
    if !uncovered.isEmpty then pickFrom uncovered choice else pickFrom all_skills choice
  let difficulty :=
    if !uncovered.isEmpty then 2 else min 3 (coverage_vector target_skill + 1)
  { state := .CORE_Q, question := generate_skill_question target_skill difficulty,
    target_skill := some target_skill, difficulty := some difficulty,
    next_action := "AWAIT_ANSWER",
    coverage_vector := fun s =>
      if s = target_skill then max (coverage_vector s) difficulty else coverage_vector s,
    rubric_ref := some ("core_" ++ target_skill ++ "_level" ++ toString difficulty),
    ask_clarification_opt := none, end_reason := none }

/-- InterviewAgent._transition_to_case -/
def caseQuestion : String :=
  "\n        Now I'd like you to work through a practical scenario. Imagine you have a dataset with the following columns in Excel:\n        \n        A: Employee Name\n        B: Department \n        C: Hire Date\n        D: Salary\n        E: Performance Rating (1-5)\n        \n        The data spans rows 2-101 (100 employees, with headers in row 1).\n        \n        Please provide Excel formulas or approaches for the following:\n        1. Calculate the average salary by department\n        2. Count how many employees have a performance rating of 4 or 5\n        3. Find the employee with the highest salary in the Sales department\n        4. Calculate the percentage of employees hired in the last 2 years\n        \n        Explain your formulas and reasoning for each solution.\n        "

def transition_to_case (coverage_vector : Cov) : TurnResponse :=
  { state := .CASE, question := caseQuestion, target_skill := some "case_analysis",
    difficulty := some 3, next_action := "AWAIT_ANSWER",
    coverage_vector := coverage_vector, rubric_ref := some "case_study_comprehensive",
    ask_clarification_opt := none, end_reason := none }

/-- InterviewAgent._transition_to_review -/
def transition_to_review (coverage_vector : Cov) : TurnResponse :=
  { state := .REVIEW,
    question := "Thank you for working through that case study. Before we conclude, do you have any questions about Excel functionality, or would you like to clarify any of your previous answers?",
    target_skill := some "review", difficulty := some 1, next_action := "AWAIT_ANSWER",
    coverage_vector := coverage_vector, rubric_ref := some "review_clarification",
    ask_clarification_opt := none, end_reason := none }

/-- InterviewAgent._transition_to_summary.  The returned coverage_vector is
the empty dict, i.e. every skill reads as 0. -/
def transition_to_summary : TurnResponse :=
  { state := .SUMMARY,
    question := "That concludes our Excel interview. Thank you for your time and responses. I'll now prepare your detailed feedback report.",
    target_skill := some "conclusion", difficulty := some 1,
    next_action := "END_INTERVIEW", coverage_vector := fun _ => 0,
    rubric_ref := some "interview_conclusion", ask_clarification_opt := none,
    end_reason := none }

/-- InterviewAgent._end_interview.  The dict has no target_skill, difficulty
or rubric_ref key, carries end_reason, and its coverage_vector is the empty
dict. -/
def end_interview (reason : String) : TurnResponse :=
  { state := .SUMMARY,
    question := "Interview completed: " ++ reason ++ ". Generating your detailed feedback report now.",
    target_skill := none, difficulty := none, next_action := "END_INTERVIEW",
    coverage_vector := fun _ => 0, rubric_ref := none, ask_clarification_opt := none,
    end_reason := some reason }

/-- InterviewAgent._needs_deep_dive: average coverage of foundations and
functions at least 3.0 (computed with float division, here exact division
in ℚ) and total exposure at least 15. -/
def needs_deep_dive (coverage_vector : Cov) : Bool :=
  let core_skills := foundations ++ functions
  let total_asked := (core_skills.map coverage_vector).sum
  let avg_coverage : ℚ := ((core_skills.map coverage_vector).sum : ℚ) / (core_skills.length : ℚ)
  decide ((3 : ℚ) ≤ avg_coverage) && decide (15 ≤ total_asked)

/-- InterviewAgent._core_coverage_sufficient -/
def core_coverage_sufficient (coverage_vector : Cov) : Bool :=
  let core_skills := foundations ++ functions
  let covered_count := (core_skills.filter (fun skill => 2 ≤ coverage_vector skill)).length
  let total_asked := (core_skills.map coverage_vector).sum
  decide (8 ≤ covered_count) && decide (12 ≤ total_asked)

/-- InterviewAgent._deep_dive_complete -/
def deep_dive_complete (coverage_vector : Cov) : Bool :=
  let covered_count := (analysis.filter (fun skill => 3 ≤ coverage_vector skill)).length
  decide (2 ≤ covered_count)

/-- InterviewAgent._state_transition.  The branches that call
self._transition_to_deep_dive and self._continue_deep_dive raise
AttributeError: neither method is defined anywhere in the class, so those
paths are modelled as none (the exception propagates to the caller). -/
def state_transition (current_state : InterviewState) (coverage_vector : Cov)
    (calib : Option CalibParsed) (choice : Nat) : Option TurnResponse :=
  match current_state with
  | .INTRO => some (transition_to_calibrate coverage_vector calib)
  | .CALIBRATE => some (transition_to_core coverage_vector choice)
  | .CORE_Q =>
      if needs_deep_dive coverage_vector then none
      else if core_coverage_sufficient coverage_vector then
        some (transition_to_case coverage_vector)
      else some (continue_core_questions coverage_vector choice)
  | .DEEP_DIVE =>
      if deep_dive_complete coverage_vector then some (transition_to_case coverage_vector)
      else none
  | .CASE => some (transition_to_review coverage_vector)
  | .REVIEW => some transition_to_summary
  | .SUMMARY => some (end_interview "Interview complete")

/-- InterviewAgent.process_turn.  turn_count is len(interview.turns) and
coverage_vector the stored vector, both supplied by the caller (the
repository lookup is outside the model; a missing interview raises before
any of this runs).  answer is accepted but never read: the grading of the
previous answer is disabled in the source.  The membership test guarding
the minimum-length override compares the current_state string with enum
members and is therefore False for every input, so below 8 turns the state
is always forced to CORE_Q.  A current_state string that names no enum
member raises ValueError at InterviewState(current_state), modelled as
none. -/
def process_turn (turn_count : Nat) (current_state : String) (coverage_vector : Cov)
    (answer : String) (calib : Option CalibParsed) (choice : Nat) : Option TurnResponse :=
  if max_turns ≤ turn_count then some (end_interview "Maximum turns reached")
  else
    match InterviewState.ofString
        (if turn_count < 8 then
          (if pyMem (.pstr current_state) [.penum .INTRO, .penum .CALIBRATE] then
            current_state
           else "CORE_Q")
         else current_state) with
    | none => none
    | some st => state_transition st coverage_vector calib choice

end Interviewer

/-- C6: for every call to process_turn with turn count at least 25
(max_turns), the returned state is SUMMARY with end reason
"Maximum turns reached", regardless of the current state. -/
theorem C6_maxturns_summary (turn_count : Nat) (current_state : String)
    (coverage_vector : Interviewer.Cov) (answer : String)
    (calib : Option Interviewer.CalibParsed) (choice : Nat)
    (h : 25 ≤ turn_count) :
    (Interviewer.process_turn turn_count current_state coverage_vector answer calib
        choice).map (fun r => (r.state, r.end_reason)) =
      some (Interviewer.InterviewState.SUMMARY, some "Maximum turns reached") := by
  unfold Interviewer.process_turn
  rw [if_pos (show Interviewer.max_turns ≤ turn_count from h)]
  rfl

theorem C6_maxturns_summary_witness :
    25 ≤ 25 ∧
      (Interviewer.process_turn 25 "CORE_Q" (fun _ => 0) "answer" none 0).map
          (fun r => (r.state, r.end_reason)) =
        some (Interviewer.InterviewState.SUMMARY, some "Maximum turns reached") :=
  ⟨le_refl 25,
   C6_maxturns_summary 25 "CORE_Q" (fun _ => 0) "answer" none 0 (le_refl 25)⟩

/-- C8: escalation restores the pre-escalation provider on every path
(success, raising call, or provider already claude), observable through
get_provider_info immediately afterwards. -/
theorem C8_escalation_restores_provider (question answer target_skill : String)
    (difficulty : Nat) (rule_result : Option RuleBased.RuleResult)
    (llm_result : Option LLMGradingResult) (ps : Provider.ProviderState)
    (claudeCall : Except Unit LLMGradingResult)
    (hlow : StrOps.lowerStr ps.provider = ps.provider) :
    (Provider.get_provider_info
        ((Hybrid.escalate_grading question answer target_skill difficulty rule_result
            llm_result ps claudeCall).2)).1 =
      (Provider.get_provider_info ps).1 := by
  unfold Hybrid.escalate_grading Provider.get_provider_info
  by_cases hp : ps.provider ≠ "claude"
  · rw [if_pos hp]
    cases claudeCall with
    | ok cr => simpa [Provider.switch_provider] using hlow
    | error e => simpa [Provider.switch_provider] using hlow
  · rw [if_neg hp]

theorem C8_escalation_restores_provider_witness :
    StrOps.lowerStr "gemini" = "gemini" ∧
      (Provider.get_provider_info
          ((Hybrid.escalate_grading "q" "a" "vlookup" 2 none none
              ⟨"gemini", "gemini-2.0-flash-exp"⟩ (Except.error ())).2)).1 = "gemini" :=
  ⟨by decide,
   C8_escalation_restores_provider "q" "a" "vlookup" 2 none none
     ⟨"gemini", "gemini-2.0-flash-exp"⟩ (Except.error ()) (by decide)⟩

/-- C2 counterexample input: rule score 0.8 (passed) and LLM score 85 with
LLM confidence 0.9, on the rule-heavy skill vlookup. -/
def c2rule : RuleBased.RuleResult :=
  { passed := true, score := 0.8, error_tags := [], feedback := "ok" }

def c2llm : LLMGradingResult :=
  { scores_by_dimension := [], total_score := 85, error_tags := [], confidence := 0.9,
    feedback_short := "good" }

/-- C2 counterexample: on agreeing scores the combined confidence is
min(0.9, 0.8 + llm confidence) / 2 = 0.45, not the average of 0.8 and the
LLM confidence capped at 0.9 (which would be 0.85). -/
theorem C2_counterexample :
    (Hybrid.combine_results (some c2rule) (some c2llm) "vlookup" 2).confidence = 0.45 ∧
      (0.45 : ℚ) ≠ min 0.9 ((0.8 + 0.9) / 2) ∧
      (0.45 : ℚ) ≠ (0.8 + min 0.9 (0.9 : ℚ)) / 2 := by
  refine ⟨?_, ?_, ?_⟩
  · simp only [Hybrid.combine_results, c2rule, c2llm]
    rw [if_pos (by norm_num [Hybrid.disagreement_threshold])]
    rw [min_def]
    norm_num
  · rw [min_def]; norm_num
  · rw [min_def]; norm_num

/-- C2 amended: with both results present and agreeing scores,
_combine_results returns the weighted average with rule weight 0.7 for
rule-heavy skills and 0.3 otherwise, the union of the error tags, the
method tag hybrid, and confidence min(0.9, 0.8 + llm confidence) / 2. -/
theorem C2_agreement_combination (r : RuleBased.RuleResult) (l : LLMGradingResult)
    (target_skill : String) (difficulty : Nat)
    (h : |r.score * 100 - l.total_score| ≤ 20) :
    (Hybrid.combine_results (some r) (some l) target_skill difficulty).hybrid_score =
        r.score * 100 * (if target_skill ∈ Hybrid.rule_heavy_skills then 0.7 else 0.3) +
          l.total_score *
            (1 - (if target_skill ∈ Hybrid.rule_heavy_skills then 0.7 else 0.3)) ∧
      (Hybrid.combine_results (some r) (some l) target_skill difficulty).confidence =
        min 0.9 (0.8 + l.confidence) / 2 ∧
      (∀ t, t ∈ (Hybrid.combine_results (some r) (some l) target_skill
            difficulty).error_tags ↔ (t ∈ r.error_tags ∨ t ∈ l.error_tags)) ∧
      (Hybrid.combine_results (some r) (some l) target_skill difficulty).grading_method =
        "hybrid" := by
  simp only [Hybrid.combine_results]
  rw [if_pos (show |r.score * 100 - l.total_score| ≤ Hybrid.disagreement_threshold from h)]
  refine ⟨rfl, rfl, ?_, rfl⟩
  intro t
  simp [List.mem_dedup]

theorem C2_agreement_combination_witness :
    |c2rule.score * 100 - c2llm.total_score| ≤ 20 ∧
      (Hybrid.combine_results (some c2rule) (some c2llm) "vlookup" 2).hybrid_score =
        81.5 := by
  have h : |c2rule.score * 100 - c2llm.total_score| ≤ 20 := by
    norm_num [c2rule, c2llm]
  refine ⟨h, ?_⟩
  rw [(C2_agreement_combination c2rule c2llm "vlookup" 2 h).1]
  rw [if_pos (show "vlookup" ∈ Hybrid.rule_heavy_skills by decide)]
  norm_num [c2rule, c2llm]

/-- C3: with both results present and scores differing by more than 20,
_combine_results keeps the rule score when the skill is rule-heavy and the
rule grader passed and otherwise the LLM total score, sets confidence to
0.6, adds the tag scoring_disagreement and the method tag disagreement. -/
theorem C3_disagreement_combination (r : RuleBased.RuleResult) (l : LLMGradingResult)
    (target_skill : String) (difficulty : Nat)
    (h : 20 < |r.score * 100 - l.total_score|) :
    (Hybrid.combine_results (some r) (some l) target_skill difficulty).hybrid_score =
        (if target_skill ∈ Hybrid.rule_heavy_skills ∧ r.passed = true then r.score * 100
         else l.total_score) ∧
      (Hybrid.combine_results (some r) (some l) target_skill difficulty).confidence =
        0.6 ∧
      "scoring_disagreement" ∈
        (Hybrid.combine_results (some r) (some l) target_skill difficulty).error_tags ∧
      (Hybrid.combine_results (some r) (some l) target_skill difficulty).grading_method =
        "disagreement" := by
  simp only [Hybrid.combine_results]
  rw [if_neg (not_le.mpr
    (show Hybrid.disagreement_threshold < |r.score * 100 - l.total_score| from h))]
  refine ⟨rfl, rfl, ?_, rfl⟩
  simp

/-- C3 witness input: rule score 0.3 with passed = false, LLM score 90, on
skill vlookup. -/
def c3rule : RuleBased.RuleResult :=
  { passed := false, score := 0.3, error_tags := [], feedback := "weak" }

def c3llm : LLMGradingResult :=
  { scores_by_dimension := [], total_score := 90, error_tags := [], confidence := 0.7,
    feedback_short := "strong" }

theorem C3_disagreement_combination_witness :
    20 < |c3rule.score * 100 - c3llm.total_score| ∧
      (Hybrid.combine_results (some c3rule) (some c3llm) "vlookup" 2).hybrid_score = 90 ∧
      "scoring_disagreement" ∈
        (Hybrid.combine_results (some c3rule) (some c3llm) "vlookup" 2).error_tags := by
  have h : 20 < |c3rule.score * 100 - c3llm.total_score| := by
    norm_num [c3rule, c3llm]
  have H := C3_disagreement_combination c3rule c3llm "vlookup" 2 h
  refine ⟨h, ?_, H.2.2.1⟩
  rw [H.1]
  norm_num [c3rule, c3llm]

/-- Every result produced by _escalate_grading carries one of the two
escalation method tags. -/
theorem escalate_grading_method (question answer target_skill : String) (difficulty : Nat)
    (rule_result : Option RuleBased.RuleResult) (llm_result : Option LLMGradingResult)
    (ps : Provider.ProviderState) (claudeCall : Except Unit LLMGradingResult) :
    ((Hybrid.escalate_grading question answer target_skill difficulty rule_result
          llm_result ps claudeCall).1).grading_method = "escalated_claude" ∨
      ((Hybrid.escalate_grading question answer target_skill difficulty rule_result
          llm_result ps claudeCall).1).grading_method = "escalation_failed" := by
  unfold Hybrid.escalate_grading
  by_cases hp : ps.provider ≠ "claude"
  · rw [if_pos hp]
    cases claudeCall with
    | ok cr => left; rfl
    | error e =>
        right
        unfold Hybrid.escalationFallback
        cases llm_result <;> rfl
  · rw [if_neg hp]
    right
    unfold Hybrid.escalationFallback
    cases llm_result <;> rfl

/-- C4: whenever both graders are invoked and their scores agree (difference
at most 20 points), the combined confidence min(0.9, 0.8 + llm conf)/2 is
at most 0.45, strictly below the escalation threshold 0.5, so grade_answer
escalates and never returns the method hybrid; the returned method is one
of the escalation methods. -/
theorem C4_agreement_always_escalates (question answer target_skill : String)
    (difficulty : Nat) (expected_answer : Option String) (llmOutcome : LLMGradingResult)
    (ps : Provider.ProviderState) (claudeCall : Except Unit LLMGradingResult)
    (hrule : target_skill ∈ Hybrid.rule_heavy_skills ∨
      Hybrid.contains_formulas answer = true)
    (hllm : Hybrid.needs_llm_grading
        (some (RuleBased.grade_answer question answer target_skill difficulty
          expected_answer)) target_skill difficulty answer = true)
    (hagree : |(RuleBased.grade_answer question answer target_skill difficulty
          expected_answer).score * 100 - llmOutcome.total_score| ≤ 20) :
    ((Hybrid.grade_answer question answer target_skill difficulty expected_answer
          llmOutcome ps claudeCall).1).grading_method ≠ "hybrid" ∧
      (((Hybrid.grade_answer question answer target_skill difficulty expected_answer
            llmOutcome ps claudeCall).1).grading_method = "escalated_claude" ∨
        ((Hybrid.grade_answer question answer target_skill difficulty expected_answer
            llmOutcome ps claudeCall).1).grading_method = "escalation_failed") := by
  have hcomb := C2_agreement_combination
    (RuleBased.grade_answer question answer target_skill difficulty expected_answer)
    llmOutcome target_skill difficulty hagree
  have hconf : (Hybrid.combine_results
      (some (RuleBased.grade_answer question answer target_skill difficulty
        expected_answer)) (some llmOutcome) target_skill difficulty).confidence <
      Hybrid.escalation_threshold := by
    rw [hcomb.2.1]
    have hmin : min (0.9 : ℚ) (0.8 + llmOutcome.confidence) ≤ 0.9 := min_le_left _ _
    rw [Hybrid.escalation_threshold]
    linarith
  have hesc : Hybrid.needs_escalation
      (Hybrid.combine_results
        (some (RuleBased.grade_answer question answer target_skill difficulty
          expected_answer)) (some llmOutcome) target_skill difficulty)
      (some (RuleBased.grade_answer question answer target_skill difficulty
        expected_answer)) (some llmOutcome) = true := by
    unfold Hybrid.needs_escalation
    rw [if_pos hconf]
  have hres : Hybrid.grade_answer question answer target_skill difficulty expected_answer
      llmOutcome ps claudeCall =
      Hybrid.escalate_grading question answer target_skill difficulty
        (some (RuleBased.grade_answer question answer target_skill difficulty
          expected_answer)) (some llmOutcome) ps claudeCall := by
    unfold Hybrid.grade_answer
    rw [if_pos hrule]
    simp only [hllm, if_true, hesc]
  rw [hres]
  have hm := escalate_grading_method question answer target_skill difficulty
    (some (RuleBased.grade_answer question answer target_skill difficulty expected_answer))
    (some llmOutcome) ps claudeCall
  constructor
  · rcases hm with hm | hm <;> rw [hm] <;> decide
  · exact hm

/-- Evaluation of the VLOOKUP-pattern phase of _grade_vlookup on the answer
=VLOOKUP(A1,B:C,2,FALSE): the pattern matches the whole answer, the four
parameters are extracted, the table array contains a colon, the column
index is numeric and the match type is the literal false, giving
0.4 + 0.2 + 0.1 + 0.1 + 0.1 = 0.9 with no error tags. -/
theorem gradeVlookupMain_eval :
    RuleBased.gradeVlookupMain "=VLOOKUP(A1,B:C,2,FALSE)" =
      (0.9, [], ["Used VLOOKUP function", "Included required parameters",
        "Specified lookup match type"]) := by
  simp only [RuleBased.gradeVlookupMain,
    show Re.reSearch (RuleBased.reVlookup true) "=VLOOKUP(A1,B:C,2,FALSE)".toList =
      some ("=VLOOKUP(A1,B:C,2,FALSE)".toList, []) from by decide]
  simp only [show RuleBased.extractFunctionParams
      (String.mk "=VLOOKUP(A1,B:C,2,FALSE)".toList) = ["A1", "B:C", "2", "FALSE"] from by
    decide]
  norm_num [show Re.reTest RuleBased.reRange "B:C" = false from by decide,
    show StrOps.strContains "B:C" ":" = true from by decide,
    show StrOps.isDigitStr (StrOps.stripStr "2") = true from by decide,
    show StrOps.stripStr (StrOps.lowerStr "FALSE") = "false" from by decide]

/-- C9: RuleBasedGrader.grade_answer on skill vlookup with the answer
=VLOOKUP(A1,B:C,2,FALSE) scores at least 0.6 and passes, for every question
and difficulty (the only question-dependent bonus can only add 0.1). -/
theorem C9_vlookup_formula_passes (question : String) (difficulty : Nat)
    (expected_answer : Option String) :
    (0.6 : ℚ) ≤ (RuleBased.grade_answer question "=VLOOKUP(A1,B:C,2,FALSE)" "vlookup"
        difficulty expected_answer).score ∧
      (RuleBased.grade_answer question "=VLOOKUP(A1,B:C,2,FALSE)" "vlookup" difficulty
          expected_answer).passed = true := by
  have hdisp : RuleBased.grade_answer question "=VLOOKUP(A1,B:C,2,FALSE)" "vlookup"
      difficulty expected_answer =
      RuleBased.gradeVlookup question "=VLOOKUP(A1,B:C,2,FALSE)" difficulty := by
    unfold RuleBased.grade_answer
    rw [if_neg (by decide : ¬ ("vlookup" = "references"))]
    rw [if_pos rfl]
  rw [hdisp]
  simp only [RuleBased.gradeVlookup, gradeVlookupMain_eval,
    show StrOps.strContains "=VLOOKUP(A1,B:C,2,FALSE)" "1" = true from by decide,
    Bool.or_true, Bool.and_true]
  cases happrox : StrOps.strContains
      (StrOps.lowerStr question) "approximate" && decide (3 ≤ difficulty) with
  | false =>
      constructor
      · rw [min_def]
        norm_num
      · rw [decide_eq_true_eq]
        norm_num
  | true =>
      constructor
      · rw [min_def]
        norm_num
      · rw [decide_eq_true_eq]
        norm_num

def c4question : String := "Write a VLOOKUP formula to find a product name"
def c4answer : String := "=VLOOKUP(A1,B:C,2,FALSE)"

def c4llm : LLMGradingResult :=
  { scores_by_dimension := [], total_score := 85, error_tags := [], confidence := 0.9,
    feedback_short := "solid" }

def c4claude : LLMGradingResult :=
  { scores_by_dimension := [], total_score := 88, error_tags := [], confidence := 0.8,
    feedback_short := "checked" }

/-- The rule grader scores 0.9 on the C4 witness input (the question carries
no approximate-match bonus). -/
theorem c4rule_score :
    (RuleBased.grade_answer c4question c4answer "vlookup" 3 none).score = 0.9 := by
  have hdisp : RuleBased.grade_answer c4question c4answer "vlookup" 3 none =
      RuleBased.gradeVlookup c4question c4answer 3 := by
    unfold RuleBased.grade_answer
    rw [if_neg (by decide : ¬ ("vlookup" = "references"))]
    rw [if_pos rfl]
  rw [hdisp]
  simp only [RuleBased.gradeVlookup, c4question, c4answer, gradeVlookupMain_eval,
    show StrOps.strContains
      (StrOps.lowerStr "Write a VLOOKUP formula to find a product name") "approximate" =
      false from by decide,
    Bool.false_and, Bool.false_or, if_false]
  rw [min_def]
  norm_num

theorem C4_agreement_always_escalates_witness :
    ("vlookup" ∈ Hybrid.rule_heavy_skills ∨ Hybrid.contains_formulas c4answer = true) ∧
      Hybrid.needs_llm_grading
        (some (RuleBased.grade_answer c4question c4answer "vlookup" 3 none)) "vlookup" 3
        c4answer = true ∧
      |(RuleBased.grade_answer c4question c4answer "vlookup" 3 none).score * 100 -
          c4llm.total_score| ≤ 20 ∧
      ((Hybrid.grade_answer c4question c4answer "vlookup" 3 none c4llm
          ⟨"gemini", "gemini-2.0-flash-exp"⟩ (Except.ok c4claude)).1).grading_method ≠
        "hybrid" := by
  have h1 : "vlookup" ∈ Hybrid.rule_heavy_skills ∨
      Hybrid.contains_formulas c4answer = true := Or.inl (by decide)
  have h2 : Hybrid.needs_llm_grading
      (some (RuleBased.grade_answer c4question c4answer "vlookup" 3 none)) "vlookup" 3
      c4answer = true := by decide
  have h3 : |(RuleBased.grade_answer c4question c4answer "vlookup" 3 none).score * 100 -
      c4llm.total_score| ≤ 20 := by
    rw [c4rule_score]
    norm_num [c4llm]
  exact ⟨h1, h2, h3,
    (C4_agreement_always_escalates c4question c4answer "vlookup" 3 none c4llm
      ⟨"gemini", "gemini-2.0-flash-exp"⟩ (Except.ok c4claude) h1 h2 h3).1⟩

/-- The membership test guarding the minimum-length override of
process_turn: the str current_state is compared with Enum members, which
Python == always decides negatively, so the test is False for every
string. -/
theorem pyMem_state_false (s : String) :
    Interviewer.pyMem (.pstr s)
      [.penum Interviewer.InterviewState.INTRO,
       .penum Interviewer.InterviewState.CALIBRATE] = false := rfl

theorem needs_deep_dive_zeroCov : Interviewer.needs_deep_dive (fun _ => 0) = false := by
  norm_num [Interviewer.needs_deep_dive, Interviewer.foundations, Interviewer.functions]

theorem core_coverage_sufficient_zeroCov :
    Interviewer.core_coverage_sufficient (fun _ => 0) = false := by decide

/-- C7: below 8 recorded turns, process_turn never returns state SUMMARY:
the max_turns override cannot fire there and the minimum-length override
forces state CORE_Q, whose outcomes are CORE_Q, CASE or an exception. -/
theorem C7_no_early_summary (turn_count : Nat) (current_state : String)
    (coverage_vector : Interviewer.Cov) (answer : String)
    (calib : Option Interviewer.CalibParsed) (choice : Nat) (h : turn_count < 8) :
    (Interviewer.process_turn turn_count current_state coverage_vector answer calib
        choice).map (fun r => r.state) ≠
      some Interviewer.InterviewState.SUMMARY := by
  unfold Interviewer.process_turn
  rw [if_neg (show ¬ Interviewer.max_turns ≤ turn_count by
    simp only [Interviewer.max_turns]; omega)]
  rw [if_pos h, pyMem_state_false]
  simp only [Bool.false_eq_true, if_false]
  cases hdd : Interviewer.needs_deep_dive coverage_vector with
  | true => simp [Interviewer.state_transition, Interviewer.InterviewState.ofString, hdd]
  | false =>
      cases hcs : Interviewer.core_coverage_sufficient coverage_vector with
      | true =>
          simp [Interviewer.state_transition, Interviewer.InterviewState.ofString, hdd,
            hcs, Interviewer.transition_to_case]
      | false =>
          simp [Interviewer.state_transition, Interviewer.InterviewState.ofString, hdd,
            hcs, Interviewer.continue_core_questions]

theorem C7_no_early_summary_witness :
    1 < 8 ∧
      (Interviewer.process_turn 1 "REVIEW" (fun _ => 0) "my answer" none 0).map
          (fun r => r.state) ≠ some Interviewer.InterviewState.SUMMARY :=
  ⟨by decide,
   C7_no_early_summary 1 "REVIEW" (fun _ => 0) "my answer" none 0 (by decide)⟩

/-- C1: start_interview returns INTRO with the fixed intro question, but a
non-empty answer submitted from state INTRO does not reach CALIBRATE: the
broken membership test forces the state to CORE_Q below 8 turns, so the
INTRO branch of _state_transition is unreachable and the response state is
CORE_Q. -/
theorem C1_intro_answer_forced_to_coreq :
    (Interviewer.start_interview 1).state = Interviewer.InterviewState.INTRO ∧
      (Interviewer.start_interview 1).question = Interviewer.introQuestion ∧
      ∀ (calib : Option Interviewer.CalibParsed) (choice : Nat),
        (Interviewer.process_turn 1 "INTRO" (fun _ => 0)
            "I have used Excel for five years." calib choice).map (fun r => r.state) =
          some Interviewer.InterviewState.CORE_Q := by
  refine ⟨rfl, rfl, fun calib choice => ?_⟩
  unfold Interviewer.process_turn
  rw [if_neg (by decide : ¬ Interviewer.max_turns ≤ 1)]
  rw [if_pos (by decide : (1 : Nat) < 8), pyMem_state_false]
  simp only [Bool.false_eq_true, if_false]
  simp [Interviewer.state_transition, Interviewer.InterviewState.ofString,
    needs_deep_dive_zeroCov, core_coverage_sufficient_zeroCov,
    Interviewer.continue_core_questions]

/-- Pointwise form of the coverage updates: writing max(old, d) at one key
never decreases any entry. -/
theorem le_update_max (cov : Interviewer.Cov) (sk : String) (d : Nat) (s : String) :
    cov s ≤ if s = sk then max (cov s) d else cov s := by
  split
  · exact le_max_left _ _
  · exact le_refl _

/-- Every transition except the two SUMMARY-producing ones only raises
coverage entries (each update writes max(old, d)); the SUMMARY responses
clear the vector. -/
theorem state_transition_mono (st : Interviewer.InterviewState)
    (cov : Interviewer.Cov) (calib : Option Interviewer.CalibParsed) (choice : Nat)
    (r : Interviewer.TurnResponse)
    (hr : Interviewer.state_transition st cov calib choice = some r)
    (hs : r.state ≠ Interviewer.InterviewState.SUMMARY) (s : String) :
    cov s ≤ r.coverage_vector s := by
  cases st with
  | INTRO =>
      simp only [Interviewer.state_transition, Option.some.injEq] at hr
      subst hr
      cases calib with
      | some p =>
          simp only [Interviewer.transition_to_calibrate]
          exact le_update_max cov _ _ s
      | none => exact le_refl _
  | CALIBRATE =>
      simp only [Interviewer.state_transition, Option.some.injEq] at hr
      subst hr
      simp only [Interviewer.transition_to_core]
      exact le_update_max cov _ _ s
  | CORE_Q =>
      simp only [Interviewer.state_transition] at hr
      split at hr
      · exact absurd hr (by simp)
      · split at hr
        · simp only [Option.some.injEq] at hr
          subst hr
          exact le_refl _
        · simp only [Option.some.injEq] at hr
          subst hr
          simp only [Interviewer.continue_core_questions]
          exact le_update_max cov _ _ s
  | DEEP_DIVE =>
      simp only [Interviewer.state_transition] at hr
      split at hr
      · simp only [Option.some.injEq] at hr
        subst hr
        exact le_refl _
      · exact absurd hr (by simp)
  | CASE =>
      simp only [Interviewer.state_transition, Option.some.injEq] at hr
      subst hr
      exact le_refl _
  | REVIEW =>
      simp only [Interviewer.state_transition, Option.some.injEq] at hr
      subst hr
      exact absurd rfl hs
  | SUMMARY =>
      simp only [Interviewer.state_transition, Option.some.injEq] at hr
      subst hr
      exact absurd rfl hs

/-- C5 amended: per skill, the coverage vector is non-decreasing across any
process_turn call whose response is not a SUMMARY response; the two
SUMMARY-producing paths return the cleared (empty) vector instead. -/
theorem C5_amended_coverage_monotone (turn_count : Nat) (current_state : String)
    (cov : Interviewer.Cov) (answer : String) (calib : Option Interviewer.CalibParsed)
    (choice : Nat) (r : Interviewer.TurnResponse)
    (hr : Interviewer.process_turn turn_count current_state cov answer calib choice =
      some r)
    (hs : r.state ≠ Interviewer.InterviewState.SUMMARY) (s : String) :
    cov s ≤ r.coverage_vector s := by
  unfold Interviewer.process_turn at hr
  by_cases hmax : Interviewer.max_turns ≤ turn_count
  · rw [if_pos hmax] at hr
    simp only [Option.some.injEq] at hr
    subst hr
    exact absurd rfl hs
  · rw [if_neg hmax] at hr
    rcases hof : Interviewer.InterviewState.ofString
        (if turn_count < 8 then
          (if Interviewer.pyMem (.pstr current_state)
              [.penum Interviewer.InterviewState.INTRO,
               .penum Interviewer.InterviewState.CALIBRATE] = true then current_state
           else "CORE_Q")
         else current_state) with _ | st
    · rw [hof] at hr
      exact absurd hr (by simp)
    · rw [hof] at hr
      exact state_transition_mono st cov calib choice r hr hs s

def c5cov : Interviewer.Cov := fun s => if s = "vlookup" then 2 else 0

/-- C5 counterexample: one process_turn call on the same interview (turn
count 9, state REVIEW) returns the SUMMARY response whose coverage vector
maps vlookup to 0 although the incoming vector had it at 2 — the vector is
cleared at the end of the interview, not only at the start of a new one. -/
theorem C5_counterexample :
    c5cov "vlookup" = 2 ∧
      (Interviewer.process_turn 9 "REVIEW" c5cov "done" none 0).map
          (fun r => (r.state, r.coverage_vector "vlookup")) =
        some (Interviewer.InterviewState.SUMMARY, 0) := by
  constructor
  · rfl
  · rfl

def c5wcov : Interviewer.Cov := fun s => if s = "references" then 1 else 0

theorem C5_amended_coverage_monotone_witness :
    Interviewer.process_turn 9 "CALIBRATE" c5wcov "my answer" none 0 =
        some (Interviewer.transition_to_core c5wcov 0) ∧
      (Interviewer.transition_to_core c5wcov 0).state ≠
        Interviewer.InterviewState.SUMMARY ∧
      c5wcov "references" ≤
        (Interviewer.transition_to_core c5wcov 0).coverage_vector "references" :=
  ⟨rfl, by decide,
   C5_amended_coverage_monotone 9 "CALIBRATE" c5wcov "my answer" none 0
     (Interviewer.transition_to_core c5wcov 0) rfl (by decide) "references"⟩

/-- random.choice, as modelled by pickFrom, always returns an element of a
non-empty list. -/
theorem pickFrom_mem (l : List String) (choice : Nat) (h : l ≠ []) :
    Interviewer.pickFrom l choice ∈ l := by
  unfold Interviewer.pickFrom
  have hlen : 0 < l.length := List.length_pos.mpr h
  have hlt : choice % l.length < l.length := Nat.mod_lt _ hlen
  rw [List.getD_eq_getElem?_getD, List.getElem?_eq_getElem hlt, Option.getD_some]
  exact List.getElem_mem hlt

def c10cov : Interviewer.Cov := fun s => if s = "references" then 1 else 0

/-- C10 counterexample: with references at coverage 1 and every other
candidate at 0, _continue_core_questions can select references (coverage 1),
although coverage-0 candidates such as ranges exist — the pool is the
skills with coverage < 2 over foundations ∪ functions ∪ data_ops, not the
coverage-0 skills, and in particular not the minimum-coverage skill. -/
theorem C10_counterexample :
    (Interviewer.continue_core_questions c10cov 0).target_skill = some "references" ∧
      c10cov "references" = 1 ∧ c10cov "ranges" = 0 ∧
      "ranges" ∈ Interviewer.foundations ++ Interviewer.functions ++
        Interviewer.data_ops := by
  refine ⟨rfl, rfl, rfl, by decide⟩

/-- C10 amended: inside CORE_Q the candidate set is
foundations ∪ functions ∪ data_ops; when some candidate has coverage < 2
the next skill is drawn (uniformly, modelled by the oracle index) from
exactly the candidates with coverage < 2 at difficulty 2, otherwise from
all candidates at difficulty min(3, coverage+1); afterwards
coverage[skill] = max(coverage[skill], difficulty) and no other entry
changes. -/
theorem C10_amended_core_selection (cov : Interviewer.Cov) (choice : Nat) :
    ∃ sk d,
      (Interviewer.continue_core_questions cov choice).target_skill = some sk ∧
      (Interviewer.continue_core_questions cov choice).difficulty = some d ∧
      sk ∈ Interviewer.foundations ++ Interviewer.functions ++ Interviewer.data_ops ∧
      ((∃ s ∈ Interviewer.foundations ++ Interviewer.functions ++ Interviewer.data_ops,
          cov s < 2) → cov sk < 2 ∧ d = 2) ∧
      ((∀ s ∈ Interviewer.foundations ++ Interviewer.functions ++ Interviewer.data_ops,
          2 ≤ cov s) → d = min 3 (cov sk + 1)) ∧
      ∀ s, (Interviewer.continue_core_questions cov choice).coverage_vector s =
        if s = sk then max (cov s) d else cov s := by
  by_cases hu : (Interviewer.foundations ++ Interviewer.functions ++
      Interviewer.data_ops).filter (fun skill => decide (cov skill < 2)) = []
  · refine ⟨Interviewer.pickFrom
        (Interviewer.foundations ++ Interviewer.functions ++ Interviewer.data_ops) choice,
      min 3 (cov (Interviewer.pickFrom
        (Interviewer.foundations ++ Interviewer.functions ++ Interviewer.data_ops)
        choice) + 1), ?_, ?_, ?_, ?_, ?_, ?_⟩
    · simp only [Interviewer.continue_core_questions, hu, List.isEmpty_nil,
        Bool.not_true, Bool.false_eq_true, if_false]
    · simp only [Interviewer.continue_core_questions, hu, List.isEmpty_nil,
        Bool.not_true, Bool.false_eq_true, if_false]
    · exact pickFrom_mem _ choice (by decide)
    · rintro ⟨s, hsm, hs2⟩
      have hno := List.filter_eq_nil_iff.mp hu s hsm
      simp only [decide_eq_true_eq] at hno
      exact absurd hs2 hno
    · intro _
      rfl
    · intro s
      simp only [Interviewer.continue_core_questions, hu, List.isEmpty_nil,
        Bool.not_true, Bool.false_eq_true, if_false]
  · have hne : ((Interviewer.foundations ++ Interviewer.functions ++
        Interviewer.data_ops).filter (fun skill => decide (cov skill < 2))).isEmpty =
        false := by
      rw [Bool.eq_false_iff]
      intro hcontra
      exact hu (List.isEmpty_iff.mp hcontra)
    refine ⟨Interviewer.pickFrom
        ((Interviewer.foundations ++ Interviewer.functions ++
          Interviewer.data_ops).filter (fun skill => decide (cov skill < 2))) choice,
      2, ?_, ?_, ?_, ?_, ?_, ?_⟩
    · simp only [Interviewer.continue_core_questions, hne, Bool.not_false, if_true]
    · simp only [Interviewer.continue_core_questions, hne, Bool.not_false, if_true]
    · have hm := pickFrom_mem _ choice hu
      exact (List.mem_filter.mp hm).1
    · intro _
      have hm := pickFrom_mem _ choice hu
      have h2 := (List.mem_filter.mp hm).2
      simp only [decide_eq_true_eq] at h2
      exact ⟨h2, rfl⟩
    · intro hall
      exfalso
      apply hu
      apply List.filter_eq_nil_iff.mpr
      intro s hsm
      simp only [decide_eq_true_eq, not_lt]
      exact hall s hsm
    · intro s
      simp only [Interviewer.continue_core_questions, hne, Bool.not_false, if_true]
